import Mathlib

/-!
Shallow embedding of `launchdarkly-lambda-logger` (`src/index.js`, the
Winston-based revision of the `Logger` class) together with theorems about
its level-resolution/gating protocol, its `initialize` control flow and its
SDK-log-level bootstrap.

Conventions of the embedding:
* JavaScript promise rejection is modelled with `Except JsError`.
* The LaunchDarkly client is an external collaborator; its behaviour is a
  parameter (a function from the arguments of `variation` to a result).
* Machine-visible side effects of the bootstrap (client construction,
  `close()` calls, `console.log`, warnings) are recorded as explicit events.
-/

/-- A thrown JavaScript error (the value a rejected promise carries). -/
structure JsError where
  message : String
deriving DecidableEq, Repr

/-- Identity fields of the optional `context.service` sub-object. -/
structure ServiceInfo where
  key : String
  name : String
deriving DecidableEq, Repr

/-- A LaunchDarkly evaluation context: an attribute bundle.  The fields are
the ones the source ever touches (the synthetic service context built during
the SDK-log-level bootstrap, and `context.service` read from the caller's
context). -/
structure LDContext where
  kind : String
  key : String
  name : String
  environment : String
  service : Option ServiceInfo
deriving DecidableEq, Repr

/-- A default, otherwise-unremarkable evaluation context for concrete runs. -/
def ctx0 : LDContext := ⟨"user", "test-user", "", "", none⟩

/-- The `LogLevel` enumeration of the source: six numeric constants. -/
def LogLevel.FATAL : Int := 0

/-- Numeric value of the `ERROR` log level. -/
def LogLevel.ERROR : Int := 1

/-- Numeric value of the `WARN` log level. -/
def LogLevel.WARN : Int := 2

/-- Numeric value of the `INFO` log level. -/
def LogLevel.INFO : Int := 3

/-- Numeric value of the `DEBUG` log level. -/
def LogLevel.DEBUG : Int := 4

/-- Numeric value of the `TRACE` log level. -/
def LogLevel.TRACE : Int := 5

/-- Behaviour of a bound LaunchDarkly client as seen by the level resolver:
`variation flagKey context defaultValue` either resolves to a number or
throws.  (The third argument is the fallback value the flag service itself
applies when the flag is absent.) -/
structure LDClient where
  variation : String → LDContext → Int → Except JsError Int

/-- The facade state the level resolver reads: `this.ldClient` (possibly
null), `this.FLAG_KEY` and `this.context`. -/
structure Logger where
  ldClient : Option LDClient
  FLAG_KEY : String
  context : LDContext

/-- Embeds `Logger.getCurrentLogLevel`:

    if (!this.ldClient) return LogLevel.ERROR;
    const logLevel = await this.ldClient.variation(this.FLAG_KEY, this.context, LogLevel.INFO);
    return logLevel;

The surrounding `this.logger.debug` diagnostics do not affect the returned
value and are not modelled.  There is no try/catch: a rejection of
`variation` propagates. -/
def Logger.getCurrentLogLevel (lg : Logger) : Except JsError Int :=
  match lg.ldClient with
  | none => .ok LogLevel.ERROR
  | some c => c.variation lg.FLAG_KEY lg.context LogLevel.INFO

/-- Embeds `Logger.shouldLog`:

    const currentLevel = await this.getCurrentLogLevel();
    return level <= currentLevel;
-/
def Logger.shouldLog (lg : Logger) (level : Int) : Except JsError Bool :=
  match lg.getCurrentLogLevel with
  | .error e => .error e
  | .ok currentLevel => .ok (decide (level ≤ currentLevel))

/-- A variadic JavaScript argument to a leveled logging method, restricted to
the primitive shapes the claims exercise (`String(arg)` applies to both). -/
inductive JsArg
  | strArg (s : String)
  | numArg (n : Int)
deriving DecidableEq, Repr

/-- The `String(arg)` rendering of a primitive argument. -/
def JsArg.toJsString : JsArg → String
  | .strArg s => s
  | .numArg n => toString n

/-- Embeds `Logger.formatMessage`: renders each argument and joins with a
single space (`args.map(...).join(' ')`). -/
def Logger.formatMessage (args : List JsArg) : String :=
  String.intercalate " " (args.map JsArg.toJsString)

/-- A message actually handed to the Winston sink: its named level and the
formatted message string. -/
structure Emission where
  level : String
  message : String
deriving DecidableEq, Repr

/-- Embeds `Logger.fatal`: gate via `shouldLog(LogLevel.FATAL)`, then
`this.logger.log('fatal', this.formatMessage(args))`.  `.ok none` means the
call completed but emitted nothing. -/
def Logger.fatal (lg : Logger) (args : List JsArg) : Except JsError (Option Emission) :=
  match lg.shouldLog LogLevel.FATAL with
  | .error e => .error e
  | .ok b => if b then .ok (some ⟨"fatal", Logger.formatMessage args⟩) else .ok none

/-- Embeds `Logger.error`: gate via `shouldLog(LogLevel.ERROR)`, then
`this.logger.error(this.formatMessage(args))`. -/
def Logger.error (lg : Logger) (args : List JsArg) : Except JsError (Option Emission) :=
  match lg.shouldLog LogLevel.ERROR with
  | .error e => .error e
  | .ok b => if b then .ok (some ⟨"error", Logger.formatMessage args⟩) else .ok none

/-- Embeds `Logger.warn`: gate via `shouldLog(LogLevel.WARN)`, then
`this.logger.warn(this.formatMessage(args))`. -/
def Logger.warn (lg : Logger) (args : List JsArg) : Except JsError (Option Emission) :=
  match lg.shouldLog LogLevel.WARN with
  | .error e => .error e
  | .ok b => if b then .ok (some ⟨"warn", Logger.formatMessage args⟩) else .ok none

/-- Embeds `Logger.info`: gate via `shouldLog(LogLevel.INFO)`, then
`this.logger.info(this.formatMessage(args))`. -/
def Logger.info (lg : Logger) (args : List JsArg) : Except JsError (Option Emission) :=
  match lg.shouldLog LogLevel.INFO with
  | .error e => .error e
  | .ok b => if b then .ok (some ⟨"info", Logger.formatMessage args⟩) else .ok none

/-- Embeds `Logger.debug`: gate via `shouldLog(LogLevel.DEBUG)`, then
`this.logger.debug(this.formatMessage(args))`. -/
def Logger.debug (lg : Logger) (args : List JsArg) : Except JsError (Option Emission) :=
  match lg.shouldLog LogLevel.DEBUG with
  | .error e => .error e
  | .ok b => if b then .ok (some ⟨"debug", Logger.formatMessage args⟩) else .ok none

/-- Embeds `Logger.trace`: gate via `shouldLog(LogLevel.TRACE)`, then
`this.logger.log('trace', this.formatMessage(args))`. -/
def Logger.trace (lg : Logger) (args : List JsArg) : Except JsError (Option Emission) :=
  match lg.shouldLog LogLevel.TRACE with
  | .error e => .error e
  | .ok b => if b then .ok (some ⟨"trace", Logger.formatMessage args⟩) else .ok none

/-- Whether a completed leveled call actually emitted a message. -/
def emitsb : Except JsError (Option Emission) → Bool
  | .ok (some _) => true
  | _ => false

/-- A flag-service client that resolves the log-level flag to the constant
threshold `t` (the behaviour of the repository's own test mocks). -/
def constClient (t : Int) : LDClient := ⟨fun _ _ _ => .ok t⟩

/-- A fully bound facade whose flag service reports threshold `t`. -/
def loggerWithThreshold (t : Int) : Logger := ⟨some (constClient t), "app-log-level", ctx0⟩

/-- A flag-service client whose every evaluation throws `e`. -/
def throwClient (e : JsError) : LDClient := ⟨fun _ _ _ => .error e⟩

/-- A flag-service client that resolves every flag to the default value it
was handed, i.e. the behaviour of the real service when the flag is absent.
Observing its result reveals the `defaultValue` argument of the call. -/
def echoClient : LDClient := ⟨fun _ _ dflt => .ok dflt⟩

/-- Reduction of `emitsb` over the gate's conditional. -/
theorem emitsb_ite (b : Bool) (em : Emission) :
    emitsb (if b then (.ok (some em) : Except JsError (Option Emission)) else .ok none) = b := by
  cases b <;> simp [emitsb]

/-- Reduction of `emitsb` over the gate's conditional, propositional form. -/
theorem emitsb_ite_prop (p : Prop) [Decidable p] (em : Emission) :
    emitsb (if p then (.ok (some em) : Except JsError (Option Emission)) else .ok none)
      = decide p := by
  by_cases h : p <;> simp [emitsb, h]

/-- C1: for every log level L in {FATAL=0..TRACE=5} and every numeric
threshold t resolved from the flag service, a leveled logging call at L emits
its message if and only if L is at most t; in particular, when the threshold
flag returns 3 (INFO), fatal "a", error "b", warn "c", info "d" emit and
debug "e", trace "f" are suppressed. -/
theorem leveled_call_emits_iff_le_threshold (t : Int) (m : List JsArg) :
    (emitsb ((loggerWithThreshold t).fatal m) = decide (LogLevel.FATAL ≤ t))
    ∧ (emitsb ((loggerWithThreshold t).error m) = decide (LogLevel.ERROR ≤ t))
    ∧ (emitsb ((loggerWithThreshold t).warn m) = decide (LogLevel.WARN ≤ t))
    ∧ (emitsb ((loggerWithThreshold t).info m) = decide (LogLevel.INFO ≤ t))
    ∧ (emitsb ((loggerWithThreshold t).debug m) = decide (LogLevel.DEBUG ≤ t))
    ∧ (emitsb ((loggerWithThreshold t).trace m) = decide (LogLevel.TRACE ≤ t))
    ∧ ((loggerWithThreshold 3).fatal [.strArg "a"] = .ok (some ⟨"fatal", "a"⟩))
    ∧ ((loggerWithThreshold 3).error [.strArg "b"] = .ok (some ⟨"error", "b"⟩))
    ∧ ((loggerWithThreshold 3).warn [.strArg "c"] = .ok (some ⟨"warn", "c"⟩))
    ∧ ((loggerWithThreshold 3).info [.strArg "d"] = .ok (some ⟨"info", "d"⟩))
    ∧ ((loggerWithThreshold 3).debug [.strArg "e"] = .ok none)
    ∧ ((loggerWithThreshold 3).trace [.strArg "f"] = .ok none) := by
  refine ⟨?_, ?_, ?_, ?_, ?_, ?_, rfl, rfl, rfl, rfl, rfl, rfl⟩ <;>
    simp [Logger.fatal, Logger.error, Logger.warn, Logger.info, Logger.debug, Logger.trace,
      Logger.shouldLog, Logger.getCurrentLogLevel, loggerWithThreshold, constClient,
      emitsb_ite_prop]

/-- C7: with no client bound, `getCurrentLogLevel` returns ERROR (1), so
`fatal` and `error` emit while `warn`, `info`, `debug` and `trace` do not,
and every leveled call completes without throwing. -/
theorem uninitialized_logger_gates_at_error (k : String) (c : LDContext) (m : List JsArg) :
    (Logger.mk none k c).getCurrentLogLevel = .ok LogLevel.ERROR
    ∧ (Logger.mk none k c).fatal m = .ok (some ⟨"fatal", Logger.formatMessage m⟩)
    ∧ (Logger.mk none k c).error m = .ok (some ⟨"error", Logger.formatMessage m⟩)
    ∧ (Logger.mk none k c).warn m = .ok none
    ∧ (Logger.mk none k c).info m = .ok none
    ∧ (Logger.mk none k c).debug m = .ok none
    ∧ (Logger.mk none k c).trace m = .ok none :=
  ⟨rfl, rfl, rfl, rfl, rfl, rfl, rfl⟩

/-- A concrete flag-service failure, used to exercise the throwing paths. -/
def svcErr : JsError := ⟨"flag service unavailable"⟩

/-- C5 counterexample: with a bound client whose flag evaluation throws, a
leveled logging call does NOT complete — the error propagates to the caller
(the promise rejects), contradicting the claim that logging calls never
throw due to flag-service unavailability. -/
theorem logging_call_throws_on_flag_service_failure :
    (Logger.mk (some (throwClient svcErr)) "app-log-level" ctx0).fatal [.strArg "a"]
      = .error svcErr
    ∧ (Logger.mk (some (throwClient svcErr)) "app-log-level" ctx0).info [.strArg "d"]
      = .error svcErr :=
  ⟨rfl, rfl⟩

/-- C5 amended: if the flag-service evaluation throws, every leveled logging
call propagates that error to the caller (there is no catch in
`getCurrentLogLevel` or `shouldLog`); the ERROR default is substituted only
when no client is bound at all. -/
theorem evaluation_throw_propagates_to_caller (e : JsError) (k : String) (c : LDContext)
    (m : List JsArg) :
    (Logger.mk (some (throwClient e)) k c).fatal m = .error e
    ∧ (Logger.mk (some (throwClient e)) k c).error m = .error e
    ∧ (Logger.mk (some (throwClient e)) k c).warn m = .error e
    ∧ (Logger.mk (some (throwClient e)) k c).info m = .error e
    ∧ (Logger.mk (some (throwClient e)) k c).debug m = .error e
    ∧ (Logger.mk (some (throwClient e)) k c).trace m = .error e
    ∧ (Logger.mk none k c).getCurrentLogLevel = .ok LogLevel.ERROR :=
  ⟨rfl, rfl, rfl, rfl, rfl, rfl, rfl⟩

/-- C2 counterexample: binding a client that resolves every flag to the
fallback value it is handed (the behaviour of the real service when the flag
is absent) makes `getCurrentLogLevel` return INFO (3), not ERROR (1) — so
the third argument `getCurrentLogLevel` passes to `client.variation` is
`LogLevel.INFO`, not `LogLevel.ERROR` as claimed. -/
theorem getCurrentLogLevel_default_is_not_error :
    (Logger.mk (some echoClient) "app-log-level" ctx0).getCurrentLogLevel
      = .ok LogLevel.INFO
    ∧ LogLevel.INFO ≠ LogLevel.ERROR :=
  ⟨rfl, by decide⟩

/-- C2 amended: for every evaluation in `getCurrentLogLevel`, the third
argument given to `client.variation` equals `LogLevel.INFO` (3) — the source
passes `LogLevel.INFO`, not `LogLevel.ERROR`, as the service-side fallback. -/
theorem getCurrentLogLevel_passes_info_default (cl : LDClient) (k : String) (c : LDContext) :
    (Logger.mk (some cl) k c).getCurrentLogLevel = cl.variation k c LogLevel.INFO
    ∧ (Logger.mk (some echoClient) k c).getCurrentLogLevel = .ok 3 :=
  ⟨rfl, rfl⟩

/-- JavaScript truthiness of a possibly-absent string (`undefined` and the
empty string are falsy). -/
def truthyStr : Option String → Bool
  | none => false
  | some s => !s.isEmpty

/-- The JavaScript expression `a || b` on possibly-absent strings: the first
operand when truthy, otherwise the second. -/
def jsOrStr (a b : Option String) : Option String :=
  if truthyStr a then a else b

/-- The JavaScript expression `v || d` where `v` is a possibly-absent string
and `d` a non-empty literal default. -/
def jsOrDefault (v : Option String) (d : String) : String :=
  match v with
  | none => d
  | some s => if s.isEmpty then d else s

/-- The process environment variables the source reads. -/
structure ProcessEnv where
  LD_LOG_LEVEL_FLAG_KEY : Option String
  LD_SDK_LOG_LEVEL_FLAG_KEY : Option String
  NODE_ENV : Option String

/-- The `options` argument of `Logger.initialize` (the two flag-key fields
the source reads; remaining fields are passed through to the client and do
not affect control flow). -/
structure InitOptions where
  logLevelFlagKey : Option String
  sdkLogLevelFlagKey : Option String

/-- Options arguments with neither flag key set (`{}` in the source's
tests). -/
def optsNone : InitOptions := ⟨none, none⟩

/-- The runtime shape of `initialize`'s first argument, as the source's
`typeof` branches distinguish it: a string credential, a non-null object,
`null` (which is `typeof 'object'` but falsy), or any other primitive. -/
inductive SdkKeyOrClient
  | str (s : String)
  | obj (id : Nat)
  | null
  | otherPrimitive
deriving DecidableEq, Repr

/-- How `initialize` can fail: the configuration error (missing log-level
flag key), the invalid-argument error (first argument neither string nor
non-null object), or an exception propagated from the flag-service client. -/
inductive InitError
  | configError
  | invalidArgError
  | thrown (e : JsError)
deriving DecidableEq, Repr

/-- Identity of the client the facade ends up holding in `this.ldClient`:
one it constructed itself (`LaunchDarkly.init`, numbered by construction
order) or one adopted from the caller. -/
inductive ClientRef
  | constructed (n : Nat)
  | borrowed (id : Nat)
deriving DecidableEq, Repr

/-- Externally visible side effects of `initialize`, in program order. -/
inductive InitEvent
  | ldInit
  | tempClose
  | consoleLog (finalLevel : String) (source : String)
  | basicLoggerLevel (level : String)
  | warnEmitted (message : String)
deriving DecidableEq, Repr

/-- Behaviour of the temporary bootstrap client, as supplied by the outside
world: the outcome of `waitForInitialization` and of `variation` (the latter
a function of flag key, context and the service-side default). -/
structure TempClientBehavior where
  waitForInitialization : Except JsError Unit
  variation : String → LDContext → String → Except JsError String

/-- Behaviour of the external world during one `initialize` call: the
temporary client's behaviour and the outcome of the bound client's final
`waitForInitialization`. -/
structure SdkWorld where
  temp : TempClientBehavior
  mainWaitForInitialization : Except JsError Unit

/-- The outcome of one `initialize` call: how it returned, which client (if
any) is bound in `this.ldClient` afterwards, and the recorded events. -/
structure InitResult where
  outcome : Except InitError Unit
  ldClient : Option ClientRef
  events : List InitEvent
deriving Repr

/-- The source's `validSdkLogLevels` array. -/
def validSdkLogLevels : List String := ["debug", "info", "warn", "error", "none"]

/-- Embeds `Logger.initialize(sdkKeyOrClient, context, options)` as a
function of the external world's behaviour.  Faithful transcription:

* `FLAG_KEY = options.logLevelFlagKey || process.env.LD_LOG_LEVEL_FLAG_KEY`,
  same for the SDK flag key; missing `FLAG_KEY` throws the configuration
  error before anything else happens.
* On a string credential with an SDK flag key configured: construct the
  temporary client, await its readiness, build the synthetic service
  context, evaluate the SDK flag with default `'info'`, then (only on the
  success path — there is no try/finally) close the temporary client, log
  the chosen level to the console, and construct the main client whose
  `basicLogger` level is the flag value used verbatim.  No warning is ever
  emitted and no fallback to `'error'` happens.
* On a string credential without an SDK flag key: construct the client
  directly.
* On a non-null object: adopt it as `this.ldClient` without constructing
  anything.
* Otherwise: throw the invalid-argument error.
* Finally await the bound client's readiness; a rejection anywhere
  propagates (the result's `outcome` carries it). -/
def Logger.initiate (w : SdkWorld) (env : ProcessEnv) (sdkKeyOrClient : SdkKeyOrClient)
    (context : LDContext) (options : InitOptions) : InitResult :=
  let FLAG_KEY := jsOrStr options.logLevelFlagKey env.LD_LOG_LEVEL_FLAG_KEY
  let SDK_LOG_LEVEL_FLAG_KEY := jsOrStr options.sdkLogLevelFlagKey env.LD_SDK_LOG_LEVEL_FLAG_KEY
  if !truthyStr FLAG_KEY then
    ⟨.error .configError, none, []⟩
  else
    match sdkKeyOrClient with
    | .str _ =>
      if truthyStr SDK_LOG_LEVEL_FLAG_KEY then
        match w.temp.waitForInitialization with
        | .error e => ⟨.error (.thrown e), none, [.ldInit]⟩
        | .ok _ =>
          let serviceContext : LDContext :=
            ⟨"service",
             jsOrDefault (context.service.map ServiceInfo.key) "default-service",
             jsOrDefault (context.service.map ServiceInfo.name) "Default Service",
             jsOrDefault env.NODE_ENV "development",
             none⟩
          match w.temp.variation (SDK_LOG_LEVEL_FLAG_KEY.getD "") serviceContext "info" with
          | .error e => ⟨.error (.thrown e), none, [.ldInit]⟩
          | .ok sdkLogLevel =>
            let source := if validSdkLogLevels.contains sdkLogLevel then "flag" else "default"
            let events : List InitEvent :=
              [.ldInit, .tempClose, .consoleLog sdkLogLevel source,
               .basicLoggerLevel sdkLogLevel, .ldInit]
            match w.mainWaitForInitialization with
            | .error e => ⟨.error (.thrown e), some (.constructed 1), events⟩
            | .ok _ => ⟨.ok (), some (.constructed 1), events⟩
      else
        match w.mainWaitForInitialization with
        | .error e => ⟨.error (.thrown e), some (.constructed 0), [.ldInit]⟩
        | .ok _ => ⟨.ok (), some (.constructed 0), [.ldInit]⟩
    | .obj id =>
      match w.mainWaitForInitialization with
      | .error e => ⟨.error (.thrown e), some (.borrowed id), []⟩
      | .ok _ => ⟨.ok (), some (.borrowed id), []⟩
    | .null => ⟨.error .invalidArgError, none, []⟩
    | .otherPrimitive => ⟨.error .invalidArgError, none, []⟩

/-- Embeds `Logger.close` (`await this.ldClient?.close()`): the list of
clients whose `close()` the facade invokes. -/
def Logger.close (ldClient : Option ClientRef) : List ClientRef :=
  match ldClient with
  | none => []
  | some c => [c]

/-- Number of `tempClient.close()` calls among the recorded events. -/
def countTempClose (events : List InitEvent) : Nat :=
  (events.filter fun e => match e with | .tempClose => true | _ => false).length

/-- Number of client constructions (`LaunchDarkly.init`) among the events. -/
def countLdInit (events : List InitEvent) : Nat :=
  (events.filter fun e => match e with | .ldInit => true | _ => false).length

/-- Number of warnings emitted through the facade logger among the events. -/
def countWarnings (events : List InitEvent) : Nat :=
  (events.filter fun e => match e with | .warnEmitted _ => true | _ => false).length

/-- Number of main-client constructions whose `basicLogger` level is `lvl`. -/
def countBasicLoggerLevel (lvl : String) (events : List InitEvent) : Nat :=
  (events.filter fun e => match e with
    | .basicLoggerLevel l => l == lvl
    | _ => false).length

/-- An environment carrying both flag keys (as the bootstrap scenario
requires). -/
def envBothKeys : ProcessEnv := ⟨some "app-log-level", some "sdk-log-level", none⟩

/-- An environment with no flag keys at all. -/
def envNoKeys : ProcessEnv := ⟨none, none, none⟩

/-- A temporary client that initializes fine and resolves every flag to the
service-side default it was handed. -/
def tempOk : TempClientBehavior := ⟨.ok (), fun _ _ dflt => .ok dflt⟩

/-- A world in which everything succeeds. -/
def wOK : SdkWorld := ⟨tempOk, .ok ()⟩

/-- A temporary client whose flag evaluation throws `svcErr`. -/
def tempVariationThrows : TempClientBehavior := ⟨.ok (), fun _ _ _ => .error svcErr⟩

/-- A world in which the temporary client's flag evaluation throws. -/
def wVariationThrows : SdkWorld := ⟨tempVariationThrows, .ok ()⟩

/-- A temporary client whose flag evaluation resolves to the out-of-set
value "invalid-level". -/
def tempInvalidLevel : TempClientBehavior := ⟨.ok (), fun _ _ _ => .ok "invalid-level"⟩

/-- A world in which the SDK-log-level flag returns "invalid-level". -/
def wInvalidLevel : SdkWorld := ⟨tempInvalidLevel, .ok ()⟩

/-- C3: contrary to the claim, the bootstrap does NOT close the temporary
client on every exit path: the `await tempClient.variation(...)` /
`await tempClient.close()` sequence has no try/finally, so when the flag
evaluation throws, zero `close()` calls happen and the exception propagates;
on the success path the temporary client is closed exactly once. -/
theorem temp_client_not_closed_when_variation_throws :
    (Logger.initiate wVariationThrows envBothKeys (.str "sdk-key") ctx0 optsNone).outcome
      = .error (.thrown svcErr)
    ∧ countTempClose
        (Logger.initiate wVariationThrows envBothKeys (.str "sdk-key") ctx0 optsNone).events = 0
    ∧ countTempClose (Logger.initiate wOK envBothKeys (.str "sdk-key") ctx0 optsNone).events = 1 :=
  ⟨rfl, rfl, rfl⟩

/-- C4: contrary to the claim (and to the repository's own tests), when the
SDK-log-level flag returns the out-of-set value "invalid-level" the
bootstrap emits no warning at all and passes "invalid-level" verbatim as
the real client's `basicLogger` level; the only trace of invalidity is the
`console.log` labelling the source as "default". -/
theorem invalid_sdk_level_used_verbatim_without_warning :
    (Logger.initiate wInvalidLevel envBothKeys (.str "sdk-key") ctx0 optsNone).outcome = .ok ()
    ∧ (Logger.initiate wInvalidLevel envBothKeys (.str "sdk-key") ctx0 optsNone).events
        = [.ldInit, .tempClose, .consoleLog "invalid-level" "default",
           .basicLoggerLevel "invalid-level", .ldInit]
    ∧ countBasicLoggerLevel "invalid-level"
        (Logger.initiate wInvalidLevel envBothKeys (.str "sdk-key") ctx0 optsNone).events = 1
    ∧ countBasicLoggerLevel "error"
        (Logger.initiate wInvalidLevel envBothKeys (.str "sdk-key") ctx0 optsNone).events = 0
    ∧ countWarnings
        (Logger.initiate wInvalidLevel envBothKeys (.str "sdk-key") ctx0 optsNone).events = 0 :=
  ⟨rfl, rfl, rfl, rfl, rfl⟩

/-- C8: when no log-level flag key is resolvable from the options or from
the environment, `initialize` throws the configuration error and nothing
else happens: no client is constructed or adopted, no events at all. -/
theorem missing_flag_key_fails_with_config_error (w : SdkWorld) (env : ProcessEnv)
    (arg : SdkKeyOrClient) (c : LDContext) (opts : InitOptions)
    (h : truthyStr (jsOrStr opts.logLevelFlagKey env.LD_LOG_LEVEL_FLAG_KEY) = false) :
    Logger.initiate w env arg c opts = ⟨.error .configError, none, []⟩ := by
  simp [Logger.initiate, h]

/-- Witness for C8: the concrete call of the spec scenario, a string
credential with empty options and an empty environment. -/
theorem missing_flag_key_fails_with_config_error_witness :
    Logger.initiate wOK envNoKeys (.str "fake-sdk-key") ctx0 optsNone
      = ⟨.error .configError, none, []⟩ :=
  missing_flag_key_fails_with_config_error wOK envNoKeys (.str "fake-sdk-key") ctx0 optsNone rfl

/-- C9: with a log-level flag key resolvable (the situation the spec's
scenario presupposes; see the flag-key-first ordering claim), a first
argument that is neither a string credential nor a non-null object — `null`
in particular — fails with the invalid-argument error, and no client is
constructed or adopted. -/
theorem null_argument_fails_with_invalid_argument_error (w : SdkWorld) (env : ProcessEnv)
    (c : LDContext) (opts : InitOptions)
    (h : truthyStr (jsOrStr opts.logLevelFlagKey env.LD_LOG_LEVEL_FLAG_KEY) = true) :
    Logger.initiate w env .null c opts = ⟨.error .invalidArgError, none, []⟩
    ∧ Logger.initiate w env .otherPrimitive c opts = ⟨.error .invalidArgError, none, []⟩ := by
  constructor <;> simp [Logger.initiate, h]

/-- Witness for C9: `initialize(null, context)` with the flag key present in
the environment. -/
theorem null_argument_fails_with_invalid_argument_error_witness :
    Logger.initiate wOK envBothKeys .null ctx0 optsNone
      = ⟨.error .invalidArgError, none, []⟩
    ∧ Logger.initiate wOK envBothKeys .otherPrimitive ctx0 optsNone
      = ⟨.error .invalidArgError, none, []⟩ :=
  null_argument_fails_with_invalid_argument_error wOK envBothKeys ctx0 optsNone rfl

/-- C10: the flag-key configuration check runs before the first argument's
type is examined: with no resolvable flag key, `initialize` throws the
configuration error whatever the first argument is, and conversely the
invalid-argument error is only reachable when a flag key is resolvable. -/
theorem flag_key_check_precedes_argument_type_check :
    (∀ (w : SdkWorld) (env : ProcessEnv) (arg : SdkKeyOrClient) (c : LDContext)
        (opts : InitOptions),
        truthyStr (jsOrStr opts.logLevelFlagKey env.LD_LOG_LEVEL_FLAG_KEY) = false →
        Logger.initiate w env arg c opts = ⟨.error .configError, none, []⟩)
    ∧ (∀ (w : SdkWorld) (env : ProcessEnv) (arg : SdkKeyOrClient) (c : LDContext)
        (opts : InitOptions),
        (Logger.initiate w env arg c opts).outcome = .error .invalidArgError →
        truthyStr (jsOrStr opts.logLevelFlagKey env.LD_LOG_LEVEL_FLAG_KEY) = true) := by
  constructor
  · intro w env arg c opts h
    simp [Logger.initiate, h]
  · intro w env arg c opts h
    cases htr : truthyStr (jsOrStr opts.logLevelFlagKey env.LD_LOG_LEVEL_FLAG_KEY)
    · have hout : (Logger.initiate w env arg c opts).outcome = .error .configError := by
        simp [Logger.initiate, htr]
      rw [hout] at h
      simp at h
    · rfl

/-- Witness for C10: a null first argument together with a missing flag key
produces the configuration error, not the invalid-argument error. -/
theorem flag_key_check_precedes_argument_type_check_witness :
    Logger.initiate wOK envNoKeys .null ctx0 optsNone = ⟨.error .configError, none, []⟩ :=
  flag_key_check_precedes_argument_type_check.1 wOK envNoKeys .null ctx0 optsNone rfl

/-- C6 counterexample: a facade initialized by adopting an externally
supplied client (`initialize(clientObject, ...)`) DOES invoke `close` on
that borrowed client when `close()` is called — `close` is
`await this.ldClient?.close()` with no ownership distinction (the
repository's own test asserts this closing behaviour). -/
theorem borrowed_client_closed_by_facade :
    (Logger.initiate wOK envBothKeys (.obj 7) ctx0 optsNone).ldClient = some (.borrowed 7)
    ∧ Logger.close (Logger.initiate wOK envBothKeys (.obj 7) ctx0 optsNone).ldClient
        = [ClientRef.borrowed 7]
    ∧ ([ClientRef.borrowed 7] : List ClientRef) ≠ [] :=
  ⟨rfl, rfl, by simp⟩

/-- An environment carrying only the application log-level flag key (no
SDK-log-level flag key), so a string credential takes the direct
construction path. -/
def envAppKeyOnly : ProcessEnv := ⟨some "app-log-level", none, none⟩

/-- C6 amended: `close()` closes whichever client is bound, whether the
facade constructed it or merely adopted it; it is a no-op only when no
client is bound.  Conjuncts: an adopted client is bound and closed; a
client the facade constructed directly (string credential, no SDK flag
key) is bound and closed; the main client constructed by the bootstrap
(concrete successful run) is bound and closed; `close` on any bound client
closes exactly that client and is never a no-op; `close` with no client
bound closes nothing. -/
theorem close_closes_bound_client_regardless_of_provenance (w : SdkWorld) (env : ProcessEnv)
    (c : LDContext) (opts : InitOptions) (id : Nat) (s : String)
    (h : truthyStr (jsOrStr opts.logLevelFlagKey env.LD_LOG_LEVEL_FLAG_KEY) = true)
    (hs : truthyStr (jsOrStr opts.sdkLogLevelFlagKey env.LD_SDK_LOG_LEVEL_FLAG_KEY) = false) :
    (Logger.initiate w env (.obj id) c opts).ldClient = some (.borrowed id)
    ∧ Logger.close (Logger.initiate w env (.obj id) c opts).ldClient = [ClientRef.borrowed id]
    ∧ (Logger.initiate w env (.str s) c opts).ldClient = some (.constructed 0)
    ∧ Logger.close (Logger.initiate w env (.str s) c opts).ldClient = [ClientRef.constructed 0]
    ∧ (Logger.initiate wOK envBothKeys (.str "sdk-key") ctx0 optsNone).ldClient
        = some (.constructed 1)
    ∧ Logger.close (Logger.initiate wOK envBothKeys (.str "sdk-key") ctx0 optsNone).ldClient
        = [ClientRef.constructed 1]
    ∧ (∀ r : ClientRef, Logger.close (some r) = [r])
    ∧ (∀ r : ClientRef, Logger.close (some r) ≠ [])
    ∧ Logger.close none = [] := by
  have hadopt : (Logger.initiate w env (.obj id) c opts).ldClient = some (.borrowed id) := by
    cases hw : w.mainWaitForInitialization <;> simp [Logger.initiate, h, hw]
  have hdirect : (Logger.initiate w env (.str s) c opts).ldClient = some (.constructed 0) := by
    cases hw : w.mainWaitForInitialization <;> simp [Logger.initiate, h, hs, hw]
  refine ⟨hadopt, by rw [hadopt]; rfl, hdirect, by rw [hdirect]; rfl, rfl, rfl,
    fun r => rfl, fun r => ?_, rfl⟩
  simp [Logger.close]

/-- Witness for the amended C6: with the concrete all-success world, an
adopted client object is bound and closed, a directly constructed client is
bound and closed, the bootstrap's main client is bound and closed, and the
generic close facts hold at a concrete client. -/
theorem close_closes_bound_client_regardless_of_provenance_witness :
    (Logger.initiate wOK envAppKeyOnly (.obj 3) ctx0 optsNone).ldClient = some (.borrowed 3)
    ∧ Logger.close (Logger.initiate wOK envAppKeyOnly (.obj 3) ctx0 optsNone).ldClient
        = [ClientRef.borrowed 3]
    ∧ (Logger.initiate wOK envAppKeyOnly (.str "fake-sdk-key") ctx0 optsNone).ldClient
        = some (.constructed 0)
    ∧ Logger.close
        (Logger.initiate wOK envAppKeyOnly (.str "fake-sdk-key") ctx0 optsNone).ldClient
        = [ClientRef.constructed 0]
    ∧ (Logger.initiate wOK envBothKeys (.str "sdk-key") ctx0 optsNone).ldClient
        = some (.constructed 1)
    ∧ Logger.close (Logger.initiate wOK envBothKeys (.str "sdk-key") ctx0 optsNone).ldClient
        = [ClientRef.constructed 1]
    ∧ Logger.close (some (ClientRef.constructed 1)) = [ClientRef.constructed 1]
    ∧ Logger.close (some (ClientRef.constructed 1)) ≠ []
    ∧ Logger.close none = [] := by
  obtain ⟨h1, h2, h3, h4, h5, h6, h7, h8, h9⟩ :=
    close_closes_bound_client_regardless_of_provenance wOK envAppKeyOnly ctx0 optsNone 3
      "fake-sdk-key" rfl rfl
  exact ⟨h1, h2, h3, h4, h5, h6, h7 (ClientRef.constructed 1), h8 (ClientRef.constructed 1), h9⟩
